import Mathlib

/-!
Shallow embedding of the eBay-tracker profitability reporting engine
(src/app.py, `reports` route, together with the per-item financial helpers
of src/models.py).  Nullable SQL floats are modelled as `Option ℚ`, SQL
dates as a calendar `Date` structure, and each aggregation query of the
route as an explicit pure function over a list of `Item` records.
-/

/-- Calendar date (year, month, day), as Python `datetime.date` / a SQL DATE. -/
structure Date where
  year : Int
  month : Nat
  day : Nat
deriving DecidableEq, Repr

/-- Calendar (equivalently ISO-string) order on dates, as used by the SQL
comparisons `Item.date_sold >= start_date` / `<= end_date`. -/
def dateLe (a b : Date) : Bool :=
  decide (a.year < b.year ∨ (a.year = b.year ∧
    (a.month < b.month ∨ (a.month = b.month ∧ a.day ≤ b.day))))

/-- Gregorian leap-year rule (as implemented by Python `datetime` / SQLite). -/
def isLeap (y : Int) : Bool :=
  y % 4 == 0 && (y % 100 != 0 || y % 400 == 0)

/-- Number of days in a month of a given year. -/
def daysInMonth (y : Int) (m : Nat) : Nat :=
  if m = 2 then (if isLeap y then 29 else 28)
  else if m = 4 ∨ m = 6 ∨ m = 9 ∨ m = 11 then 30
  else 31

/-- A structurally valid calendar date. -/
def Date.Valid (d : Date) : Prop :=
  1 ≤ d.month ∧ d.month ≤ 12 ∧ 1 ≤ d.day ∧ d.day ≤ daysInMonth d.year d.month

instance (d : Date) : Decidable d.Valid := by
  unfold Date.Valid; infer_instance

/-- One day earlier: the effect of Python `some_date - timedelta(days=1)`
on a valid date. -/
def predDay (d : Date) : Date :=
  if 1 < d.day then ⟨d.year, d.month, d.day - 1⟩
  else if 1 < d.month then ⟨d.year, d.month - 1, daysInMonth d.year (d.month - 1)⟩
  else ⟨d.year - 1, 12, 31⟩

/-- N days earlier: the effect of Python `some_date - timedelta(days=n)`. -/
def subDays (d : Date) : Nat → Date
  | 0 => d
  | n + 1 => subDays (predDay d) n

/-- Proleptic-Gregorian day number of a date (standard days-from-civil
algorithm).  SQLite `julianday` applied to a DATE value differs from this
by a fixed offset only, and the route uses nothing but differences of two
`julianday` values, which agree with differences of this day number. -/
def julianday (d : Date) : Int :=
  let y : Int := if d.month ≤ 2 then d.year - 1 else d.year
  let m : Int := d.month
  let dd : Int := d.day
  let era : Int := (if 0 ≤ y then y else y - 399) / 400
  let yoe : Int := y - era * 400
  let mp : Int := (m + 9) % 12
  let doy : Int := (153 * mp + 2) / 5 + dd - 1
  let doe : Int := yoe * 365 + yoe / 4 - yoe / 100 + doy
  era * 146097 + doe - 719468

/-- An item record (src/models.py `Item`), restricted to the columns the
reporting engine reads.  Nullable numeric columns are `Option ℚ`, nullable
dates `Option Date`. -/
structure Item where
  sku : Nat
  item_name : String
  category : Option String
  sub_category : Option String
  platform : Option String
  source_location : Option String
  cog : Option ℚ
  sale_price : Option ℚ
  ad_fee : Option ℚ
  ebay_fee : Option ℚ
  shipping : Option ℚ
  buyer_paid_amount : Option ℚ
  date_listed : Option Date
  date_sold : Option Date
  sold : Bool
deriving DecidableEq, Repr

/-- An uploaded image row (src/models.py `ItemImage`). -/
structure ItemImage where
  id : Nat
  item_sku : Nat
  filename : String
deriving DecidableEq, Repr

/-- Null-as-zero coalescing: `Item._n` in src/models.py and
`func.coalesce(col, 0.0)` (local `nz`) in the reports route. -/
def nz : Option ℚ → ℚ
  | none => 0
  | some v => v

/-- Net Cost = COG + Ad Fee + eBay Fee + Shipping (src/models.py). -/
def Item.net_cost (it : Item) : ℚ :=
  nz it.cog + nz it.ad_fee + nz it.ebay_fee + nz it.shipping

/-- Gross Profit = Buyer Paid Amount - Net Cost (src/models.py). -/
def Item.gross_profit (it : Item) : ℚ :=
  nz it.buyer_paid_amount - it.net_cost

/-- The `profit_expr` SQL expression of the reports route (src/app.py):
coalesce(buyer_paid,0) - (coalesce(cog,0)+coalesce(shipping,0)+coalesce(ad_fee,0)+coalesce(ebay_fee,0)). -/
def profitExpr (it : Item) : ℚ :=
  nz it.buyer_paid_amount - (nz it.cog + nz it.shipping + nz it.ad_fee + nz it.ebay_fee)

/-- The spec's per-item profit formula, written from the words of the
specification: profit = buyer_paid_amount - (cog + shipping + ad_fee + ebay_fee),
with every null operand treated as 0. -/
def spec_profit (it : Item) : ℚ :=
  nz it.buyer_paid_amount - (nz it.cog + nz it.shipping + nz it.ad_fee + nz it.ebay_fee)

/-- The `days_to_sell_expr` SQL CASE expression: julianday(date_sold) -
julianday(date_listed) when both dates are present, NULL otherwise. -/
def daysToSellExpr (it : Item) : Option ℚ :=
  match it.date_listed, it.date_sold with
  | some dl, some ds => some (((julianday ds - julianday dl : Int) : ℚ))
  | _, _ => none

/-- Grouping key `func.coalesce(Item.category, "Uncategorized")`. -/
def categoryCol (it : Item) : String := it.category.getD "Uncategorized"

/-- Grouping key `func.coalesce(Item.source_location, "Unknown")`. -/
def sourceCol (it : Item) : String := it.source_location.getD "Unknown"

/-- The `Item.date_sold.isnot(None) ∧ Item.date_sold >= start_date` filter
pair appended when a start bound is set. -/
def filterStartOk (s : Option Date) (dateSold : Option Date) : Bool :=
  match s with
  | none => true
  | some sd =>
    match dateSold with
    | none => false
    | some d => dateLe sd d

/-- The `Item.date_sold.isnot(None) ∧ Item.date_sold <= end_date` filter
pair appended when an end bound is set. -/
def filterEndOk (e : Option Date) (dateSold : Option Date) : Bool :=
  match e with
  | none => true
  | some ed =>
    match dateSold with
    | none => false
    | some d => dateLe d ed

/-- Membership predicate of the sold-and-in-range subset: `Item.sold IS TRUE`
plus the conditionally-appended `sold_date_filters`. -/
def soldInRangeP (s e : Option Date) (it : Item) : Bool :=
  it.sold && filterStartOk s it.date_sold && filterEndOk e it.date_sold

/-- The sold-and-in-range subset of the item table. -/
def soldInRange (items : List Item) (s e : Option Date) : List Item :=
  items.filter (soldInRangeP s e)

/-- SQL AVG over a bag of non-NULL values: NULL on the empty bag, the mean
otherwise. -/
def listAvg (xs : List ℚ) : Option ℚ :=
  if xs.isEmpty then none else some (xs.sum / xs.length)

/-- Date-range resolution of the reports route (src/app.py lines 324-350).
Custom bounds arrive already parsed (`parse_date` maps malformed strings to
`None`, modelled as `none` here).  Returns the echoed range key together
with the resolved inclusive bounds. -/
def resolveRange (rangeKey : String) (startArg endArg : Option Date) (today : Date) :
    String × Option Date × Option Date :=
  if rangeKey = "30d" then (rangeKey, some (subDays today 30), some today)
  else if rangeKey = "90d" then (rangeKey, some (subDays today 90), some today)
  else if rangeKey = "this_month" then (rangeKey, some { today with day := 1 }, some today)
  else if rangeKey = "last_month" then
    let first_this_month := { today with day := 1 }
    let last_month_end := predDay first_this_month
    (rangeKey, some { last_month_end with day := 1 }, some last_month_end)
  else if rangeKey = "this_year" then
    (rangeKey, some { today with month := 1, day := 1 }, some today)
  else if rangeKey = "last_year" then
    (rangeKey, some ⟨today.year - 1, 1, 1⟩, some ⟨today.year - 1, 12, 31⟩)
  else if rangeKey = "custom" then
    match startArg, endArg with
    | some sd, some ed =>
      if !dateLe sd ed then (rangeKey, some ed, some sd)
      else (rangeKey, some sd, some ed)
    | _, _ => (rangeKey, startArg, endArg)
  else ("all", none, none)

/-- The KPI block of the report (src/app.py lines 379-405 and 612-619). -/
structure Kpis where
  total_items : Nat
  sold_items : Nat
  sold_rate_pct : ℚ
  total_profit : ℚ
  avg_profit_per_sold : ℚ
  avg_days_to_sell : ℚ
deriving DecidableEq, Repr

/-- Global KPI computation of the reports route. -/
def kpis (items : List Item) (s e : Option Date) : Kpis :=
  let total_items := items.length
  let soldL := soldInRange items s e
  let sold_items := soldL.length
  let sold_rate_pct : ℚ :=
    if total_items ≠ 0 then (sold_items : ℚ) / (total_items : ℚ) * 100 else 0
  let total_profit := (soldL.map profitExpr).sum
  let avg_profit_per_sold : ℚ :=
    if sold_items ≠ 0 then total_profit / (sold_items : ℚ) else 0
  let avg_days_to_sell := (listAvg ((soldL.map daysToSellExpr).reduceOption)).getD 0
  ⟨total_items, sold_items, sold_rate_pct, total_profit, avg_profit_per_sold, avg_days_to_sell⟩

/-- The CASE expression inside `avg_days_listed_unsold`: days listed for an
unsold item with a listing date, NULL otherwise. -/
def daysListedUnsold (today : Date) (it : Item) : Option ℚ :=
  if !it.sold then
    match it.date_listed with
    | some dl => some (((julianday today - julianday dl : Int) : ℚ))
    | none => none
  else none

/-- The CASE expression inside `avg_cog_unsold`: cog of an unsold item when
present, NULL otherwise. -/
def cogUnsold (it : Item) : Option ℚ :=
  if !it.sold then it.cog else none

/-- One row of the by-category breakdown, with the fields of the dict built
at src/app.py lines 475-485. -/
structure CatRow where
  category : String
  sold_count : Nat
  unsold_count : Nat
  sold_rate_pct : ℚ
  total_profit : ℚ
  avg_profit : ℚ
  avg_days_listed_unsold : Option ℚ
deriving DecidableEq, Repr

/-- The merged per-key category row: inventory-pass aggregates over all
items of the key, sold-pass aggregates over the sold-and-in-range items of
the key.  A key missing from one of the two grouped queries corresponds to
an empty group on that side, whose aggregates coincide with the code's
dict defaults (0 / 0.0 / None). -/
def catRow (items soldL : List Item) (today : Date) (k : String) : CatRow :=
  let grpAll := items.filter (fun it => categoryCol it == k)
  let grpSold := soldL.filter (fun it => categoryCol it == k)
  let total_count := grpAll.length
  let sold_count := grpSold.length
  let unsold_count := (grpAll.filter (fun it => !it.sold)).length
  let total_profit := (grpSold.map profitExpr).sum
  let avg_profit := (listAvg (grpSold.map profitExpr)).getD 0
  let avg_days_listed_unsold := listAvg ((grpAll.map (daysListedUnsold today)).reduceOption)
  let sold_rate_pct : ℚ :=
    if total_count ≠ 0 then (sold_count : ℚ) * 100 / (total_count : ℚ) else 0
  ⟨k, sold_count, unsold_count, sold_rate_pct, total_profit, avg_profit, avg_days_listed_unsold⟩

/-- The final sort key of the category breakdown:
`by_category.sort(key=lambda x: (x["sold_count"], x["total_profit"]), reverse=True)`. -/
def catKeyGE (a b : CatRow) : Prop :=
  b.sold_count < a.sold_count ∨ (a.sold_count = b.sold_count ∧ b.total_profit ≤ a.total_profit)

instance : DecidableRel catKeyGE := fun a b => by
  unfold catKeyGE; infer_instance

instance : IsTotal CatRow catKeyGE :=
  ⟨fun a b => by
    unfold catKeyGE
    rcases Nat.lt_trichotomy a.sold_count b.sold_count with h | h | h
    · exact Or.inr (Or.inl h)
    · rcases le_total a.total_profit b.total_profit with hp | hp
      · exact Or.inr (Or.inr ⟨h.symm, hp⟩)
      · exact Or.inl (Or.inr ⟨h, hp⟩)
    · exact Or.inl (Or.inl h)⟩

instance : IsTrans CatRow catKeyGE :=
  ⟨fun a b c hab hbc => by
    unfold catKeyGE at *
    rcases hab with h1 | ⟨h1, h1p⟩ <;> rcases hbc with h2 | ⟨h2, h2p⟩
    · exact Or.inl (h2.trans h1)
    · exact Or.inl (by omega)
    · exact Or.inl (by omega)
    · exact Or.inr ⟨by omega, h2p.trans h1p⟩⟩

/-- The by-category breakdown: union of the keys of the two grouped
queries, sorted ascending by `sorted(set(...))`, merged row by row, then
ordered by (sold_count, total_profit) descending. -/
def byCategory (items : List Item) (s e : Option Date) (today : Date) : List CatRow :=
  let soldL := soldInRange items s e
  let all_cats := List.insertionSort (fun a b : String => a ≤ b)
    (((items.map categoryCol) ++ (soldL.map categoryCol)).dedup)
  List.insertionSort catKeyGE (all_cats.map (catRow items soldL today))

/-- One row of the by-source-location breakdown (dict of src/app.py lines
566-578). -/
structure SrcRow where
  source : String
  sold_count : Nat
  unsold_count : Nat
  sold_rate_pct : ℚ
  total_profit : ℚ
  avg_profit : ℚ
  avg_days_to_sell : Option ℚ
  avg_days_listed_unsold : Option ℚ
  avg_cog_unsold : Option ℚ
deriving DecidableEq, Repr

/-- The merged per-key source-location row. -/
def srcRow (items soldL : List Item) (today : Date) (k : String) : SrcRow :=
  let grpAll := items.filter (fun it => sourceCol it == k)
  let grpSold := soldL.filter (fun it => sourceCol it == k)
  let total_count := grpAll.length
  let sold_count := grpSold.length
  let unsold_count := (grpAll.filter (fun it => !it.sold)).length
  let total_profit := (grpSold.map profitExpr).sum
  let avg_profit := (listAvg (grpSold.map profitExpr)).getD 0
  let avg_days_to_sell := listAvg ((grpSold.map daysToSellExpr).reduceOption)
  let avg_days_listed_unsold := listAvg ((grpAll.map (daysListedUnsold today)).reduceOption)
  let avg_cog_unsold := listAvg ((grpAll.map cogUnsold).reduceOption)
  let sold_rate_pct : ℚ :=
    if total_count ≠ 0 then (sold_count : ℚ) * 100 / (total_count : ℚ) else 0
  ⟨k, sold_count, unsold_count, sold_rate_pct, total_profit, avg_profit,
    avg_days_to_sell, avg_days_listed_unsold, avg_cog_unsold⟩

/-- The final sort key of the source-location breakdown, exactly as written
at src/app.py line 580:
`by_source.sort(key=lambda x: (x["sold_count"], x["total_profit"]), reverse=True)`. -/
def srcKeyGE (a b : SrcRow) : Prop :=
  b.sold_count < a.sold_count ∨ (a.sold_count = b.sold_count ∧ b.total_profit ≤ a.total_profit)

instance : DecidableRel srcKeyGE := fun a b => by
  unfold srcKeyGE; infer_instance

instance : IsTotal SrcRow srcKeyGE :=
  ⟨fun a b => by
    unfold srcKeyGE
    rcases Nat.lt_trichotomy a.sold_count b.sold_count with h | h | h
    · exact Or.inr (Or.inl h)
    · rcases le_total a.total_profit b.total_profit with hp | hp
      · exact Or.inr (Or.inr ⟨h.symm, hp⟩)
      · exact Or.inl (Or.inr ⟨h, hp⟩)
    · exact Or.inl (Or.inl h)⟩

instance : IsTrans SrcRow srcKeyGE :=
  ⟨fun a b c hab hbc => by
    unfold srcKeyGE at *
    rcases hab with h1 | ⟨h1, h1p⟩ <;> rcases hbc with h2 | ⟨h2, h2p⟩
    · exact Or.inl (h2.trans h1)
    · exact Or.inl (by omega)
    · exact Or.inl (by omega)
    · exact Or.inr ⟨by omega, h2p.trans h1p⟩⟩

/-- The by-source-location breakdown. -/
def bySource (items : List Item) (s e : Option Date) (today : Date) : List SrcRow :=
  let soldL := soldInRange items s e
  let all_sources := List.insertionSort (fun a b : String => a ≤ b)
    (((items.map sourceCol) ++ (soldL.map sourceCol)).dedup)
  List.insertionSort srcKeyGE (all_sources.map (srcRow items soldL today))

/-- One entry of the top-profit list (dict of src/app.py lines 601-610). -/
structure TopRow where
  sku : Nat
  item_name : String
  category : String
  profit : ℚ
  days_to_sell : Option ℚ
  date_sold : Option Date
deriving DecidableEq, Repr

/-- Row selected by the top-profit query for one item. -/
def mkTopRow (it : Item) : TopRow :=
  ⟨it.sku, it.item_name, categoryCol it, profitExpr it, daysToSellExpr it, it.date_sold⟩

/-- Profit-descending order of the top-profit query (`order_by(profit_expr.desc())`). -/
def profitGE (a b : TopRow) : Prop := b.profit ≤ a.profit

instance : DecidableRel profitGE := fun a b => by
  unfold profitGE; infer_instance

instance : IsTotal TopRow profitGE := ⟨fun a b => le_total b.profit a.profit⟩

instance : IsTrans TopRow profitGE := ⟨fun _ _ _ hab hbc => le_trans hbc hab⟩

/-- The top-profit list: sold-and-in-range items ordered by profit
descending, truncated by the fixed `.limit(15)` of the query. -/
def topProfit (items : List Item) (s e : Option Date) : List TopRow :=
  let soldL := soldInRange items s e
  (List.insertionSort profitGE (soldL.map mkTopRow)).take 15

/-- The full report value handed to the template. -/
structure Report where
  kpiBlock : Kpis
  by_category : List CatRow
  by_source : List SrcRow
  top_profit : List TopRow
  range_key : String
  start_date : Option Date
  end_date : Option Date
deriving DecidableEq, Repr

/-- The reports route end to end: range resolution followed by every
aggregation, over one consistent snapshot `items` of the item table.  The
route reads only the `range`, `start` and `end` request arguments. -/
def reports (items : List Item) (rangeKey : String) (startArg endArg : Option Date)
    (today : Date) : Report :=
  let r := resolveRange rangeKey startArg endArg today
  let s := r.2.1
  let e := r.2.2
  ⟨kpis items s e, byCategory items s e today, bySource items s e today,
    topProfit items s e, r.1, s, e⟩

/-- Placeholder image reference substituted when an item has no uploaded
images. -/
def placeholderImage : String := "placeholder.png"

/-- Upload order on images: ascending primary-key id. -/
def imageIdLe (a b : ItemImage) : Prop := a.id ≤ b.id

instance : DecidableRel imageIdLe := fun a b => by
  unfold imageIdLe; infer_instance

instance : IsTotal ItemImage imageIdLe := ⟨fun a b => Nat.le_total a.id b.id⟩

instance : IsTrans ItemImage imageIdLe := ⟨fun _ _ _ hab hbc => Nat.le_trans hab hbc⟩

/-- Modelled from the spec: the representative-thumbnail lookup of the
top-N list (spec 4.4).  The lookup itself lives in the rendering template,
which is not part of src/, so it is modelled from the spec's words: resolve
the item's earliest-uploaded image (by upload order/id ascending) and
substitute a fixed placeholder reference when the item has none. -/
def first_image_for (images : List ItemImage) (sku : Nat) : String :=
  match List.insertionSort imageIdLe (images.filter (fun im => im.item_sku == sku)) with
  | [] => placeholderImage
  | im :: _ => im.filename

/-- Year of the month preceding the month of `d` (spec wording helper). -/
def prevMonthYear (d : Date) : Int := if d.month = 1 then d.year - 1 else d.year

/-- Month preceding the month of `d` (spec wording helper). -/
def prevMonth (d : Date) : Nat := if d.month = 1 then 12 else d.month - 1

/-- An all-null item record used to build concrete test fixtures. -/
def baseItem : Item :=
  { sku := 0, item_name := "x", category := none, sub_category := none, platform := none,
    source_location := none, cog := none, sale_price := none, ad_fee := none, ebay_fee := none,
    shipping := none, buyer_paid_amount := none, date_listed := none, date_sold := none,
    sold := false }

/-- The spec's example item: buyer_paid=50, cog=20, shipping=5, ad_fee=0,
ebay_fee=null. -/
def c5Item : Item :=
  { baseItem with
    buyer_paid_amount := some 50
    cog := some 20
    shipping := some 5
    ad_fee := some 0
    ebay_fee := none }

/-- C5: per-item profit equals buyer_paid_amount - (cog + shipping + ad_fee +
ebay_fee) with every absent financial operand treated as 0, both for the
route's `profit_expr` and for `Item.gross_profit` of src/models.py; on the
spec's example item the profit is 25. -/
theorem profit_null_coalescing (it : Item) :
    profitExpr it = spec_profit it ∧
    it.gross_profit = spec_profit it ∧
    spec_profit c5Item = 25 := by
  refine ⟨rfl, ?_, by with_unfolding_all decide⟩
  simp only [Item.gross_profit, Item.net_cost, spec_profit]
  ring

/-- C7: resolving the range key last_month yields start = first day of the
previous month of `today` and end = the day before the first of the current
month, which is the previous month's true last day. -/
theorem last_month_range_resolution (today : Date) (h : today.Valid) :
    resolveRange "last_month" none none today =
      ("last_month",
       some ⟨prevMonthYear today, prevMonth today, 1⟩,
       some ⟨prevMonthYear today, prevMonth today,
             daysInMonth (prevMonthYear today) (prevMonth today)⟩) := by
  obtain ⟨h1, h2, _, _⟩ := h
  have hres : resolveRange "last_month" none none today =
      ("last_month", some { predDay { today with day := 1 } with day := 1 },
        some (predDay { today with day := 1 })) := rfl
  rw [hres]
  have hd : predDay { today with day := 1 } =
      ⟨prevMonthYear today, prevMonth today,
        daysInMonth (prevMonthYear today) (prevMonth today)⟩ := by
    by_cases hm : today.month = 1
    · simp only [predDay, prevMonthYear, prevMonth, hm]
      norm_num [daysInMonth]
    · have hgt : 1 < today.month := by omega
      simp only [predDay, prevMonthYear, prevMonth]
      norm_num [hm, hgt]
  rw [hd]

set_option maxRecDepth 4000 in
/-- Witness for C7: today = 2024-03-15 resolves last_month to start =
2024-02-01 and end = 2024-02-29 (leap year). -/
theorem last_month_range_resolution_witness :
    resolveRange "last_month" none none ⟨2024, 3, 15⟩ =
      ("last_month", some ⟨2024, 2, 1⟩, some ⟨2024, 2, 29⟩) := by
  have h := last_month_range_resolution ⟨2024, 3, 15⟩ (by decide)
  rw [h]
  with_unfolding_all decide

/-- C3: an item with sold=true and no date_sold belongs to the
sold-and-in-range subset exactly when it is in the snapshot and the
resolved range has no bound set; whenever at least one bound is set it is
excluded (and with it from every aggregate computed from that subset). -/
theorem null_date_sold_range_membership (items : List Item) (s e : Option Date)
    (it : Item) (hsold : it.sold = true) (hnull : it.date_sold = none) :
    it ∈ soldInRange items s e ↔ (it ∈ items ∧ s = none ∧ e = none) := by
  rw [soldInRange, List.mem_filter]
  constructor
  · rintro ⟨hmem, hp⟩
    refine ⟨hmem, ?_, ?_⟩
    · cases s with
      | none => rfl
      | some sd => simp [soldInRangeP, filterStartOk, hnull] at hp
    · cases e with
      | none => rfl
      | some ed => simp [soldInRangeP, filterEndOk, hnull] at hp
  · rintro ⟨hmem, rfl, rfl⟩
    exact ⟨hmem, by simp [soldInRangeP, filterStartOk, filterEndOk, hsold]⟩

/-- Fixture for C3: a sold item without a sale date. -/
def c3Item : Item := { baseItem with sku := 7, sold := true }

/-- Witness for C3: the item is included for the unbounded range and
excluded as soon as a start bound is set. -/
theorem null_date_sold_range_membership_witness :
    c3Item ∈ soldInRange [c3Item] none none ∧
    c3Item ∉ soldInRange [c3Item] (some ⟨2024, 1, 1⟩) none := by
  constructor
  · exact (null_date_sold_range_membership [c3Item] none none c3Item rfl rfl).mpr
      ⟨List.mem_singleton_self c3Item, rfl, rfl⟩
  · intro hmem
    have h := (null_date_sold_range_membership [c3Item] (some ⟨2024, 1, 1⟩) none
      c3Item rfl rfl).mp hmem
    exact Option.noConfusion h.2.1

/-- C6: days_to_sell is the julianday difference when both lifecycle dates
are present and undefined otherwise (never coerced to 0), and the
average-days-to-sell KPI averages exactly the defined values over the
sold-and-in-range subset, yielding 0 when none is defined. -/
theorem days_to_sell_definedness_and_avg (it : Item) (items : List Item) (s e : Option Date) :
    (it.date_listed = none ∨ it.date_sold = none → daysToSellExpr it = none) ∧
    (∀ dl ds, it.date_listed = some dl → it.date_sold = some ds →
      daysToSellExpr it = some ((julianday ds - julianday dl : Int) : ℚ)) ∧
    (((soldInRange items s e).map daysToSellExpr).reduceOption = [] →
      (kpis items s e).avg_days_to_sell = 0) ∧
    (((soldInRange items s e).map daysToSellExpr).reduceOption ≠ [] →
      (kpis items s e).avg_days_to_sell =
        (((soldInRange items s e).map daysToSellExpr).reduceOption).sum /
        ((((soldInRange items s e).map daysToSellExpr).reduceOption).length : ℚ)) := by
  refine ⟨?_, ?_, ?_, ?_⟩
  · rintro (h | h) <;> cases h1 : it.date_listed <;> cases h2 : it.date_sold <;>
      simp_all [daysToSellExpr]
  · intro dl ds h1 h2
    simp [daysToSellExpr, h1, h2]
  · intro h
    show (listAvg (((soldInRange items s e).map daysToSellExpr).reduceOption)).getD 0 = 0
    rw [h]
    rfl
  · intro h
    show (listAvg (((soldInRange items s e).map daysToSellExpr).reduceOption)).getD 0 = _
    rw [listAvg, if_neg (by simpa [List.isEmpty_iff] using h)]
    rfl

/-- Fixture for C6: listed 2024-01-01, sold 2024-01-11. -/
def c6Item : Item :=
  { baseItem with
    sold := true
    date_listed := some ⟨2024, 1, 1⟩
    date_sold := some ⟨2024, 1, 11⟩ }

set_option maxRecDepth 4000 in
/-- Witness for C6: the fixture item has days_to_sell = 10, and the KPI
average over an empty snapshot is 0. -/
theorem days_to_sell_definedness_and_avg_witness :
    daysToSellExpr c6Item = some 10 ∧ (kpis [] none none).avg_days_to_sell = 0 := by
  constructor
  · rw [(days_to_sell_definedness_and_avg c6Item [] none none).2.1
      ⟨2024, 1, 1⟩ ⟨2024, 1, 11⟩ rfl rfl]
    with_unfolding_all decide
  · exact (days_to_sell_definedness_and_avg c6Item [] none none).2.2.1 rfl

/-- Size of a whole category group in the snapshot (the `total_count`
aggregate of the inventory pass). -/
def totalCountCat (items : List Item) (k : String) : Nat :=
  (items.filter (fun it => categoryCol it == k)).length

/-- Size of a whole source-location group in the snapshot. -/
def totalCountSrc (items : List Item) (k : String) : Nat :=
  (items.filter (fun it => sourceCol it == k)).length

/-- Number of unsold items of a category group in the snapshot. -/
def unsoldCountCat (items : List Item) (k : String) : Nat :=
  ((items.filter (fun it => categoryCol it == k)).filter (fun it => !it.sold)).length

/-- Number of unsold items of a source-location group in the snapshot. -/
def unsoldCountSrc (items : List Item) (k : String) : Nat :=
  ((items.filter (fun it => sourceCol it == k)).filter (fun it => !it.sold)).length

theorem catRow_category (items soldL : List Item) (today : Date) (k : String) :
    (catRow items soldL today k).category = k := rfl

theorem srcRow_source (items soldL : List Item) (today : Date) (k : String) :
    (srcRow items soldL today k).source = k := rfl

/-- Every row of the category breakdown is the merged per-key row of some
key. -/
theorem byCategory_row_eq (items : List Item) (s e : Option Date) (today : Date)
    (row : CatRow) (h : row ∈ byCategory items s e today) :
    ∃ k, row = catRow items (soldInRange items s e) today k := by
  have h1 : row ∈ (List.insertionSort (fun a b : String => a ≤ b)
      (((items.map categoryCol) ++ ((soldInRange items s e).map categoryCol)).dedup)).map
        (catRow items (soldInRange items s e) today) :=
    (List.perm_insertionSort catKeyGE _).mem_iff.mp h
  obtain ⟨k, _, hrow⟩ := List.mem_map.mp h1
  exact ⟨k, hrow.symm⟩

/-- Every row of the source-location breakdown is the merged per-key row of
some key. -/
theorem bySource_row_eq (items : List Item) (s e : Option Date) (today : Date)
    (row : SrcRow) (h : row ∈ bySource items s e today) :
    ∃ k, row = srcRow items (soldInRange items s e) today k := by
  have h1 : row ∈ (List.insertionSort (fun a b : String => a ≤ b)
      (((items.map sourceCol) ++ ((soldInRange items s e).map sourceCol)).dedup)).map
        (srcRow items (soldInRange items s e) today) :=
    (List.perm_insertionSort srcKeyGE _).mem_iff.mp h
  obtain ⟨k, _, hrow⟩ := List.mem_map.mp h1
  exact ⟨k, hrow.symm⟩

/-- A common reference date used by the concrete fixtures. -/
def d0 : Date := ⟨2024, 1, 1⟩

/-- C8: every sold-rate computation is total, yielding 0 when the
denominator is 0 and sold_count / total_count x 100 otherwise, for the
global KPI and for every row of both breakdowns. -/
theorem sold_rate_zero_denominator (items : List Item) (s e : Option Date) (today : Date) :
    ((kpis items s e).sold_rate_pct =
      if items.length ≠ 0 then
        ((soldInRange items s e).length : ℚ) / (items.length : ℚ) * 100
      else 0) ∧
    (∀ row ∈ byCategory items s e today,
      row.sold_rate_pct =
        if totalCountCat items row.category ≠ 0 then
          (row.sold_count : ℚ) * 100 / (totalCountCat items row.category : ℚ)
        else 0) ∧
    (∀ row ∈ bySource items s e today,
      row.sold_rate_pct =
        if totalCountSrc items row.source ≠ 0 then
          (row.sold_count : ℚ) * 100 / (totalCountSrc items row.source : ℚ)
        else 0) := by
  refine ⟨rfl, ?_, ?_⟩
  · intro row hrow
    obtain ⟨k, rfl⟩ := byCategory_row_eq items s e today row hrow
    rfl
  · intro row hrow
    obtain ⟨k, rfl⟩ := bySource_row_eq items s e today row hrow
    rfl

/-- Fixture for C8: one sold item in category G. -/
def c8Items : List Item := [{ baseItem with sku := 1, sold := true, category := some "G" }]

/-- The category row of the C8 fixture. -/
def c8Row : CatRow := catRow c8Items (soldInRange c8Items none none) d0 "G"

/-- Witness for C8: on the empty snapshot the global sold rate is 0 with no
error, and on the fixture the G row's sold rate is 100. -/
theorem sold_rate_zero_denominator_witness :
    (kpis [] none none).sold_rate_pct = 0 ∧ c8Row.sold_rate_pct = 100 := by
  constructor
  · simpa using (sold_rate_zero_denominator [] none none d0).1
  · rw [(sold_rate_zero_denominator c8Items none none d0).2.1 c8Row
      (by with_unfolding_all decide)]
    with_unfolding_all decide

/-- A double filter never keeps more elements than the outer filter alone. -/
theorem filter_filter_length_le {α : Type} (l : List α) (p q : α → Bool) :
    ((l.filter p).filter q).length ≤ (l.filter q).length := by
  rw [List.filter_filter]
  induction l with
  | nil => simp
  | cons a t ih =>
    by_cases hp : p a <;> by_cases hq : q a <;>
      simp [List.filter_cons, hp, hq] <;> omega

/-- The route's sold-rate expression lies in [0, 100] whenever the
numerator is bounded by the denominator. -/
theorem ratePct_nonneg_le_100 (sc tc : Nat) (h : sc ≤ tc) :
    0 ≤ (if tc ≠ 0 then (sc : ℚ) * 100 / (tc : ℚ) else 0) ∧
    (if tc ≠ 0 then (sc : ℚ) * 100 / (tc : ℚ) else 0) ≤ 100 := by
  by_cases htc : tc = 0
  · simp [htc]
  · have htc' : (0 : ℚ) < (tc : ℚ) := by exact_mod_cast Nat.pos_of_ne_zero htc
    have hsc : (sc : ℚ) ≤ (tc : ℚ) := by exact_mod_cast h
    rw [if_pos htc]
    refine ⟨by positivity, ?_⟩
    rw [div_le_iff₀ htc']
    nlinarith

/-- C10: in every row of both breakdowns the window-filtered sold count is
bounded by the group's all-time total count, so the emitted sold rate lies
in [0, 100]. -/
theorem sold_rate_bounded (items : List Item) (s e : Option Date) (today : Date) :
    (∀ row ∈ byCategory items s e today,
      row.sold_count ≤ totalCountCat items row.category ∧
      0 ≤ row.sold_rate_pct ∧ row.sold_rate_pct ≤ 100) ∧
    (∀ row ∈ bySource items s e today,
      row.sold_count ≤ totalCountSrc items row.source ∧
      0 ≤ row.sold_rate_pct ∧ row.sold_rate_pct ≤ 100) := by
  constructor
  · intro row hrow
    obtain ⟨k, rfl⟩ := byCategory_row_eq items s e today row hrow
    have hle : (catRow items (soldInRange items s e) today k).sold_count ≤
        totalCountCat items k :=
      filter_filter_length_le items (soldInRangeP s e) (fun it => categoryCol it == k)
    have hb := ratePct_nonneg_le_100
      ((catRow items (soldInRange items s e) today k).sold_count)
      (totalCountCat items k) hle
    exact ⟨hle, hb.1, hb.2⟩
  · intro row hrow
    obtain ⟨k, rfl⟩ := bySource_row_eq items s e today row hrow
    have hle : (srcRow items (soldInRange items s e) today k).sold_count ≤
        totalCountSrc items k :=
      filter_filter_length_le items (soldInRangeP s e) (fun it => sourceCol it == k)
    have hb := ratePct_nonneg_le_100
      ((srcRow items (soldInRange items s e) today k).sold_count)
      (totalCountSrc items k) hle
    exact ⟨hle, hb.1, hb.2⟩

/-- Fixture for C10: one sold and one unsold item of the same category. -/
def c10Items : List Item :=
  [ { baseItem with sku := 1, category := some "G", sold := true },
    { baseItem with sku := 2, category := some "G" } ]

/-- The category row of the C10 fixture. -/
def c10Row : CatRow := catRow c10Items (soldInRange c10Items none none) d0 "G"

/-- Witness for C10: the fixture's G row has sold_count within total_count
and a sold rate inside [0, 100]. -/
theorem sold_rate_bounded_witness :
    c10Row.sold_count ≤ totalCountCat c10Items c10Row.category ∧
    0 ≤ c10Row.sold_rate_pct ∧ c10Row.sold_rate_pct ≤ 100 :=
  (sold_rate_bounded c10Items none none d0).1 c10Row (by with_unfolding_all decide)

/-- The ordering the spec claims for the source-location breakdown:
(total_profit, sold_count) descending. -/
def specSrcProfitGE (a b : SrcRow) : Prop :=
  b.total_profit < a.total_profit ∨
    (a.total_profit = b.total_profit ∧ b.sold_count ≤ a.sold_count)

instance : DecidableRel specSrcProfitGE := fun a b => by
  unfold specSrcProfitGE; infer_instance

/-- Fixture for C2: source A has two sold items of total profit 10, source
B one sold item of profit 100. -/
def c2Items : List Item :=
  [ { baseItem with sku := 1, sold := true, buyer_paid_amount := some 5, source_location := some "A" },
    { baseItem with sku := 2, sold := true, buyer_paid_amount := some 5, source_location := some "A" },
    { baseItem with sku := 3, sold := true, buyer_paid_amount := some 100, source_location := some "B" } ]

/-- Counterexample for C2: the source-location breakdown emits the A row
(sold_count 2, total_profit 10) before the B row (sold_count 1,
total_profit 100), so it is not ordered by (total_profit, sold_count)
descending; the code orders it by (sold_count, total_profit) like the
category breakdown. -/
theorem by_source_sort_key_cex :
    ((bySource c2Items none none d0).map (fun r => (r.source, r.sold_count, r.total_profit))) =
      [("A", 2, (10 : ℚ)), ("B", 1, (100 : ℚ))] ∧
    ¬ List.Sorted specSrcProfitGE (bySource c2Items none none d0) := by
  with_unfolding_all decide

/-- C2 amended: both breakdowns are ordered by the same key,
(sold_count, total_profit) descending — there is no tie-break asymmetry
between the two groupings. -/
theorem breakdowns_sorted_by_count_then_profit (items : List Item) (s e : Option Date)
    (today : Date) :
    List.Sorted catKeyGE (byCategory items s e today) ∧
    List.Sorted srcKeyGE (bySource items s e today) :=
  ⟨List.sorted_insertionSort catKeyGE _, List.sorted_insertionSort srcKeyGE _⟩

/-- Fixture for C1: twelve sold items with pairwise distinct profits. -/
def c1Items : List Item :=
  (List.range 12).map (fun n =>
    { baseItem with sku := n, sold := true, buyer_paid_amount := some (n : ℚ) })

/-- Counterexample for C1: with 12 qualifying sold-and-in-range items the
report's top-profit list has 12 entries — outside the claimed clamp
interval [5, 10] — because the route reads no top-N parameter and applies
a fixed limit of 15. -/
theorem top_list_ignores_requested_n_cex :
    12 ≤ (soldInRange c1Items none none).length ∧
    (reports c1Items "all" none none d0).top_profit.length = 12 ∧
    ¬(5 ≤ (reports c1Items "all" none none d0).top_profit.length ∧
      (reports c1Items "all" none none d0).top_profit.length ≤ 10) := by
  with_unfolding_all decide

/-- C1 amended: the report generator accepts no top-N request parameter;
the top-profit list always has length min(15, number of sold-and-in-range
items), regardless of any requested N. -/
theorem top_list_length_min15 (items : List Item) (rangeKey : String)
    (startArg endArg : Option Date) (today : Date) :
    (reports items rangeKey startArg endArg today).top_profit.length =
      min 15 (soldInRange items
        (resolveRange rangeKey startArg endArg today).2.1
        (resolveRange rangeKey startArg endArg today).2.2).length := by
  show ((List.insertionSort profitGE
      ((soldInRange items _ _).map mkTopRow)).take 15).length = _
  rw [List.length_take, List.length_insertionSort, List.length_map]

/-- The multiset of category keys of the breakdown rows is exactly the
deduplicated union of inventory keys and sold-subset keys. -/
theorem byCategory_keys_perm (items : List Item) (s e : Option Date) (today : Date) :
    List.Perm ((byCategory items s e today).map (fun r => r.category))
      (((items.map categoryCol) ++ ((soldInRange items s e).map categoryCol)).dedup) := by
  have h1 : List.Perm ((byCategory items s e today).map (fun r => r.category))
      (((List.insertionSort (fun a b : String => a ≤ b)
          (((items.map categoryCol) ++ ((soldInRange items s e).map categoryCol)).dedup)).map
          (catRow items (soldInRange items s e) today)).map (fun r => r.category)) :=
    (List.perm_insertionSort catKeyGE _).map _
  have h2 : ((List.insertionSort (fun a b : String => a ≤ b)
      (((items.map categoryCol) ++ ((soldInRange items s e).map categoryCol)).dedup)).map
      (catRow items (soldInRange items s e) today)).map (fun r => r.category) =
      List.insertionSort (fun a b : String => a ≤ b)
        (((items.map categoryCol) ++ ((soldInRange items s e).map categoryCol)).dedup) := by
    rw [List.map_map]
    simp [Function.comp_def, catRow_category]
  rw [h2] at h1
  exact h1.trans (List.perm_insertionSort _ _)

/-- The multiset of source keys of the breakdown rows is exactly the
deduplicated union of inventory keys and sold-subset keys. -/
theorem bySource_keys_perm (items : List Item) (s e : Option Date) (today : Date) :
    List.Perm ((bySource items s e today).map (fun r => r.source))
      (((items.map sourceCol) ++ ((soldInRange items s e).map sourceCol)).dedup) := by
  have h1 : List.Perm ((bySource items s e today).map (fun r => r.source))
      (((List.insertionSort (fun a b : String => a ≤ b)
          (((items.map sourceCol) ++ ((soldInRange items s e).map sourceCol)).dedup)).map
          (srcRow items (soldInRange items s e) today)).map (fun r => r.source)) :=
    (List.perm_insertionSort srcKeyGE _).map _
  have h2 : ((List.insertionSort (fun a b : String => a ≤ b)
      (((items.map sourceCol) ++ ((soldInRange items s e).map sourceCol)).dedup)).map
      (srcRow items (soldInRange items s e) today)).map (fun r => r.source) =
      List.insertionSort (fun a b : String => a ≤ b)
        (((items.map sourceCol) ++ ((soldInRange items s e).map sourceCol)).dedup) := by
    rw [List.map_map]
    simp [Function.comp_def, srcRow_source]
  rw [h2] at h1
  exact h1.trans (List.perm_insertionSort _ _)

/-- C4: each grouped breakdown has a row exactly for every key of the
union of inventory keys and sold-and-in-range keys, and a row whose key
has no sold-and-in-range item carries the defaulted sold-side fields
(sold_count 0, total_profit 0, avg_profit 0) together with the
inventory-side unsold count. -/
theorem grouped_breakdown_key_union (items : List Item) (s e : Option Date) (today : Date)
    (k : String) :
    (((byCategory items s e today).find? (fun r => r.category == k)).isSome ↔
      (k ∈ items.map categoryCol ∨ k ∈ (soldInRange items s e).map categoryCol)) ∧
    (∀ row ∈ byCategory items s e today,
      row.category ∉ (soldInRange items s e).map categoryCol →
      row.sold_count = 0 ∧ row.total_profit = 0 ∧ row.avg_profit = 0 ∧
      row.unsold_count = unsoldCountCat items row.category) ∧
    (((bySource items s e today).find? (fun r => r.source == k)).isSome ↔
      (k ∈ items.map sourceCol ∨ k ∈ (soldInRange items s e).map sourceCol)) ∧
    (∀ row ∈ bySource items s e today,
      row.source ∉ (soldInRange items s e).map sourceCol →
      row.sold_count = 0 ∧ row.total_profit = 0 ∧ row.avg_profit = 0 ∧
      row.unsold_count = unsoldCountSrc items row.source) := by
  refine ⟨?_, ?_, ?_, ?_⟩
  · rw [List.find?_isSome]
    have hmap : (∃ x ∈ byCategory items s e today, x.category == k) ↔
        k ∈ (byCategory items s e today).map (fun r => r.category) := by
      constructor
      · rintro ⟨x, hx, hbeq⟩
        exact List.mem_map.mpr ⟨x, hx, beq_iff_eq.mp hbeq⟩
      · intro h
        obtain ⟨x, hx, hxk⟩ := List.mem_map.mp h
        exact ⟨x, hx, beq_iff_eq.mpr hxk⟩
    rw [hmap, (byCategory_keys_perm items s e today).mem_iff, List.mem_dedup,
      List.mem_append]
  · intro row hrow hnot
    obtain ⟨k2, rfl⟩ := byCategory_row_eq items s e today row hrow
    rw [catRow_category] at hnot
    have hnil : (soldInRange items s e).filter (fun it => categoryCol it == k2) = [] := by
      rw [List.filter_eq_nil_iff]
      intro a ha hc
      exact hnot (List.mem_map.mpr ⟨a, ha, by simpa [beq_iff_eq] using hc⟩)
    refine ⟨?_, ?_, ?_, rfl⟩
    · show ((soldInRange items s e).filter (fun it => categoryCol it == k2)).length = 0
      rw [hnil]; rfl
    · show (((soldInRange items s e).filter
        (fun it => categoryCol it == k2)).map profitExpr).sum = 0
      rw [hnil]; rfl
    · show (listAvg (((soldInRange items s e).filter
        (fun it => categoryCol it == k2)).map profitExpr)).getD 0 = 0
      rw [hnil]; rfl
  · rw [List.find?_isSome]
    have hmap : (∃ x ∈ bySource items s e today, x.source == k) ↔
        k ∈ (bySource items s e today).map (fun r => r.source) := by
      constructor
      · rintro ⟨x, hx, hbeq⟩
        exact List.mem_map.mpr ⟨x, hx, beq_iff_eq.mp hbeq⟩
      · intro h
        obtain ⟨x, hx, hxk⟩ := List.mem_map.mp h
        exact ⟨x, hx, beq_iff_eq.mpr hxk⟩
    rw [hmap, (bySource_keys_perm items s e today).mem_iff, List.mem_dedup,
      List.mem_append]
  · intro row hrow hnot
    obtain ⟨k2, rfl⟩ := bySource_row_eq items s e today row hrow
    rw [srcRow_source] at hnot
    have hnil : (soldInRange items s e).filter (fun it => sourceCol it == k2) = [] := by
      rw [List.filter_eq_nil_iff]
      intro a ha hc
      exact hnot (List.mem_map.mpr ⟨a, ha, by simpa [beq_iff_eq] using hc⟩)
    refine ⟨?_, ?_, ?_, rfl⟩
    · show ((soldInRange items s e).filter (fun it => sourceCol it == k2)).length = 0
      rw [hnil]; rfl
    · show (((soldInRange items s e).filter
        (fun it => sourceCol it == k2)).map profitExpr).sum = 0
      rw [hnil]; rfl
    · show (listAvg (((soldInRange items s e).filter
        (fun it => sourceCol it == k2)).map profitExpr)).getD 0 = 0
      rw [hnil]; rfl

/-- Fixture for C4: three unsold items in category Books, nothing sold. -/
def c4Items : List Item :=
  [ { baseItem with sku := 1, category := some "Books" },
    { baseItem with sku := 2, category := some "Books" },
    { baseItem with sku := 3, category := some "Books" } ]

/-- The Books row of the C4 fixture. -/
def c4Row : CatRow := catRow c4Items (soldInRange c4Items none none) d0 "Books"

/-- Witness for C4: a category with 3 unsold and 0 sold-in-range items
still yields a row, with sold_count = 0, total_profit = 0 and
unsold_count = 3. -/
theorem grouped_breakdown_key_union_witness :
    c4Row ∈ byCategory c4Items none none d0 ∧
    c4Row.sold_count = 0 ∧ c4Row.total_profit = 0 ∧ c4Row.unsold_count = 3 := by
  have hmem : c4Row ∈ byCategory c4Items none none d0 := by with_unfolding_all decide
  have h := (grouped_breakdown_key_union c4Items none none d0 "Books").2.1 c4Row hmem
    (by with_unfolding_all decide)
  refine ⟨hmem, h.1, h.2.1, ?_⟩
  rw [h.2.2.2]
  with_unfolding_all decide

/-- C9 (spec-modelled): the thumbnail reference resolved for a top-N entry
is the filename of an image of that item whose id is minimal among the
item's images (earliest-uploaded, id ascending), and the fixed placeholder
reference when the item has no images. -/
theorem thumbnail_earliest_or_placeholder (images : List ItemImage) (sku : Nat) :
    (images.filter (fun im => im.item_sku == sku) = [] →
      first_image_for images sku = placeholderImage) ∧
    (∀ im ∈ images, im.item_sku = sku →
      ∃ jm ∈ images, jm.item_sku = sku ∧ first_image_for images sku = jm.filename ∧
        jm.id ≤ im.id) := by
  constructor
  · intro h
    unfold first_image_for
    rw [h]
    rfl
  · intro im hmem hsku
    have hmemf : im ∈ images.filter (fun im2 => im2.item_sku == sku) :=
      List.mem_filter.mpr ⟨hmem, by simp [hsku]⟩
    have hmem2 : im ∈ List.insertionSort imageIdLe
        (images.filter (fun im2 => im2.item_sku == sku)) :=
      (List.perm_insertionSort imageIdLe _).mem_iff.mpr hmemf
    cases hcase : List.insertionSort imageIdLe
        (images.filter (fun im2 => im2.item_sku == sku)) with
    | nil =>
      rw [hcase] at hmem2
      cases hmem2
    | cons jm rest =>
      have hjm2 : jm ∈ images.filter (fun im2 => im2.item_sku == sku) := by
        refine (List.perm_insertionSort imageIdLe _).mem_iff.mp ?_
        rw [hcase]
        exact List.mem_cons_self _ _
      obtain ⟨hjmem, hjsku⟩ := List.mem_filter.mp hjm2
      have hsorted : List.Sorted imageIdLe (jm :: rest) := by
        rw [← hcase]
        exact List.sorted_insertionSort imageIdLe _
      have hmin : jm.id ≤ im.id := by
        rw [hcase] at hmem2
        rcases List.mem_cons.mp hmem2 with h | h
        · rw [h]
        · exact List.rel_of_sorted_cons hsorted im h
      refine ⟨jm, hjmem, by simpa using hjsku, ?_, hmin⟩
      unfold first_image_for
      rw [hcase]

/-- Fixture for C9: two images of item 1, uploaded out of order. -/
def c9Images : List ItemImage := [⟨2, 1, "late.jpg"⟩, ⟨1, 1, "early.jpg"⟩]

/-- Witness for C9: an item without images resolves to the placeholder,
and the fixture item resolves to its earliest-uploaded image. -/
theorem thumbnail_earliest_or_placeholder_witness :
    first_image_for [] 0 = placeholderImage ∧ first_image_for c9Images 1 = "early.jpg" := by
  refine ⟨(thumbnail_earliest_or_placeholder [] 0).1 rfl, ?_⟩
  with_unfolding_all decide
